import Mathlib

/-!
Verification of the remote-host configuration resolver of `topgrade`
(`src/config/remote.rs`).

The first part embeds the configuration data model declared in
`src/config/remote.rs` (`Common`, `Host`, `Remote`, `Deprecated`) and, on
top of it, the resolver (`merge` / `resolve`) described by the design
document; the resolver itself is not part of the source tree, so it is
modelled from the specification text.

The second part embeds the serde-derived deserializers of those structs,
operating on a small model of parsed TOML documents, in order to reason
about block extraction from a full configuration file.
-/

set_option autoImplicit false

namespace Topgrade

/-- `Common` mirrors `struct Common` in `src/config/remote.rs`: options that
can be specified globally or per host, each independently optional.
`ssh_arguments` is a list of strings, `topgrade_path` a single string. -/
structure Common where
  ssh_arguments : Option (List String)
  topgrade_path : Option String
deriving DecidableEq, Repr

/-- `Host` mirrors `struct Host` in `src/config/remote.rs`: a destination
string plus flattened per-host `Common` overrides. -/
structure Host where
  common : Option Common
  destination : String
deriving DecidableEq, Repr

/-- `Remote` mirrors `struct Remote` in `src/config/remote.rs`: a required
list of hosts plus flattened global `Common` defaults. -/
structure Remote where
  hosts : List Host
  common : Option Common
deriving DecidableEq, Repr

/-- `Deprecated` mirrors `struct Deprecated` in `src/config/remote.rs`:
the legacy flat format, whose `ssh_arguments` is a single unsplit string
and whose destinations live in `remote_topgrades`. -/
structure Deprecated where
  remote_topgrades : Option (List String)
  remote_topgrade_path : Option String
  ssh_arguments : Option String
deriving DecidableEq, Repr

/-- Modelled from the spec: the input to the resolver, a parsed document
holding zero-or-one Remote Block and zero-or-one Deprecated Block. -/
structure Document where
  remote : Option Remote
  deprecated : Option Deprecated
deriving DecidableEq, Repr

/-- Modelled from the spec: the output entity Resolved Host.
`ssh_arguments` (the spec calls it `connection_arguments`) is never
optional in the output; `topgrade_path` (`remote_path`) stays optional. -/
structure ResolvedHost where
  destination : String
  ssh_arguments : List String
  topgrade_path : Option String
deriving DecidableEq, Repr

/-- Modelled from the spec: the error taxonomy of the resolver,
whose only domain-specific failure is `ConflictingFormats`. -/
inductive ConfigError where
  | ConflictingFormats
deriving DecidableEq, Repr

/-- The all-absent `Common` options, used where a flattened optional
`Common` block is missing. -/
def Common.empty : Common := ⟨none, none⟩

/-- Modelled from the spec: the merge primitive on Common Options.
For each field independently, the second argument wins when present,
otherwise the first argument's value is used. -/
def Common.merge (base ov : Common) : Common :=
  { ssh_arguments :=
      match ov.ssh_arguments with
      | some a => some a
      | none => base.ssh_arguments
    topgrade_path :=
      match ov.topgrade_path with
      | some p => some p
      | none => base.topgrade_path }

/-- Modelled from the spec: shell-style whitespace splitting of the legacy
single argument string — split on whitespace runs, no quoting or escaping
honored, no empty tokens produced. Helper recursing over characters,
carrying the current (reversed) token. -/
def splitWsAux : List Char → List Char → List String
  | [], acc => if acc.isEmpty then [] else [String.mk acc.reverse]
  | c :: cs, acc =>
    if c.isWhitespace then
      if acc.isEmpty then splitWsAux cs [] else String.mk acc.reverse :: splitWsAux cs []
    else splitWsAux cs (c :: acc)

/-- Modelled from the spec: whitespace tokenization of a string. -/
def splitWhitespace (s : String) : List String :=
  splitWsAux s.data []

/-- Modelled from the spec: a document has a populated Remote Block when
the block is present and its `hosts` sequence is non-empty. -/
def remotePopulated (doc : Document) : Bool :=
  match doc.remote with
  | some r => !r.hosts.isEmpty
  | none => false

/-- The destination list of a Deprecated Block (`remote_topgrades`),
empty when the field is absent. -/
def Deprecated.destinations (d : Deprecated) : List String :=
  d.remote_topgrades.getD []

/-- Modelled from the spec: a document has a populated Deprecated Block
when the block is present and its destination list is non-empty. -/
def deprecatedPopulated (doc : Document) : Bool :=
  match doc.deprecated with
  | some d => !d.destinations.isEmpty
  | none => false

/-- Modelled from the spec: resolution of one Host Entry against the
global defaults — effective options are `merge defaults overrides`, the
connection arguments defaulted to the empty list when absent. -/
def resolveHost (defaults : Common) (h : Host) : ResolvedHost :=
  let eff := Common.merge defaults (h.common.getD Common.empty)
  { destination := h.destination
    ssh_arguments := eff.ssh_arguments.getD []
    topgrade_path := eff.topgrade_path }

/-- Modelled from the spec: resolution of a populated Remote Block, one
Resolved Host per Host Entry, in order. -/
def resolveRemote (r : Remote) : List ResolvedHost :=
  r.hosts.map (resolveHost (r.common.getD Common.empty))

/-- Modelled from the spec: resolution of a populated Deprecated Block,
one Resolved Host per destination string, in order, all sharing the same
whitespace-split connection arguments and the same remote path. -/
def resolveDeprecated (d : Deprecated) : List ResolvedHost :=
  d.destinations.map fun dst =>
    { destination := dst
      ssh_arguments := splitWhitespace (d.ssh_arguments.getD "")
      topgrade_path := d.remote_topgrade_path }

/-- Modelled from the spec: the Resolver. Fails with `ConflictingFormats`
exactly when both blocks are populated; otherwise resolves the populated
block, or returns the empty sequence when neither is populated. -/
def resolve (doc : Document) : Except ConfigError (List ResolvedHost) :=
  if remotePopulated doc && deprecatedPopulated doc then
    .error ConfigError.ConflictingFormats
  else if remotePopulated doc then
    .ok ((doc.remote.map resolveRemote).getD [])
  else if deprecatedPopulated doc then
    .ok ((doc.deprecated.map resolveDeprecated).getD [])
  else
    .ok []

/-- No connection arguments are configured anywhere in the document: the
global defaults, every per-host override and the legacy field are all
absent. Used to state the defaulting of the output field. -/
def argsAbsent (doc : Document) : Bool :=
  (match doc.remote with
   | some r =>
     (r.common.getD Common.empty).ssh_arguments.isNone &&
       r.hosts.all fun h => (h.common.getD Common.empty).ssh_arguments.isNone
   | none => true) &&
  (match doc.deprecated with
   | some d => d.ssh_arguments.isNone
   | none => true)

/-- No remote path is configured anywhere in the document. -/
def pathAbsent (doc : Document) : Bool :=
  (match doc.remote with
   | some r =>
     (r.common.getD Common.empty).topgrade_path.isNone &&
       r.hosts.all fun h => (h.common.getD Common.empty).topgrade_path.isNone
   | none => true) &&
  (match doc.deprecated with
   | some d => d.remote_topgrade_path.isNone
   | none => true)

/-- A model of parsed TOML values, the shape the `toml` crate hands to the
serde-derived deserializers. Tables are association lists of key/value
pairs with unique keys. -/
inductive Toml where
  | str : String → Toml
  | boolean : Bool → Toml
  | int : Int → Toml
  | arr : List Toml → Toml
  | table : List (String × Toml) → Toml

/-- Deserialization failures: a missing required field or a value of the
wrong shape. -/
inductive DeErr where
  | missingField : String → DeErr
  | typeMismatch : DeErr
deriving DecidableEq, Repr

/-- Key lookup in a parsed table (first occurrence). -/
def tlookup : List (String × Toml) → String → Option Toml
  | [], _ => none
  | (k, v) :: rest, key => if k = key then some v else tlookup rest key

/-- Deserializing a TOML value as a `String` field, as serde does: any
other shape is a type error, never coerced. -/
def asStr : Toml → Except DeErr String
  | .str s => .ok s
  | _ => .error DeErr.typeMismatch

/-- Deserializing a TOML value as a `Vec<String>` field: must be an array
of strings. -/
def asStrList : Toml → Except DeErr (List String)
  | .arr xs => xs.mapM asStr
  | _ => .error DeErr.typeMismatch

/-- serde semantics of an `Option<T>` struct field: an absent key yields
`none`, a present key must deserialize as `T`. -/
def getOpt {A : Type} (t : List (String × Toml)) (key : String)
    (f : Toml → Except DeErr A) : Except DeErr (Option A) :=
  match tlookup t key with
  | none => .ok none
  | some v => (f v).map some

/-- serde semantics of a required struct field: an absent key is an
error. -/
def getReq {A : Type} (t : List (String × Toml)) (key : String)
    (f : Toml → Except DeErr A) : Except DeErr A :=
  match tlookup t key with
  | none => .error (DeErr.missingField key)
  | some v => f v

/-- The serde-derived deserializer of `struct Common` in
`src/config/remote.rs`: two optional fields, unknown keys tolerated
(no `deny_unknown_fields`). -/
def Common.fromTable (t : List (String × Toml)) : Except DeErr Common :=
  match getOpt t "ssh_arguments" asStrList with
  | .error e => .error e
  | .ok sa =>
    match getOpt t "topgrade_path" asStr with
    | .error e => .error e
    | .ok tp => .ok ⟨sa, tp⟩

/-- The serde-derived deserializer of `struct Host`: a required
`destination` string plus the flattened optional `Common` overrides read
from the same table (serde materializes a flattened `Option` struct as
`some` when deserializing from a map). -/
def Host.fromTable (t : List (String × Toml)) : Except DeErr Host :=
  match getReq t "destination" asStr with
  | .error e => .error e
  | .ok dst =>
    match Common.fromTable t with
    | .error e => .error e
    | .ok c => .ok ⟨some c, dst⟩

/-- A TOML value deserialized as a `Host`: must be a table. -/
def Host.fromToml : Toml → Except DeErr Host
  | .table t => Host.fromTable t
  | _ => .error DeErr.typeMismatch

/-- Deserializing the `hosts` value of a `Remote`: an array of host
tables (`Vec<Host>`). -/
def asHostList : Toml → Except DeErr (List Host)
  | .arr xs => xs.mapM Host.fromToml
  | _ => .error DeErr.typeMismatch

/-- The serde-derived deserializer of `struct Remote`: a required `hosts`
array plus the flattened optional global `Common` defaults. -/
def Remote.fromTable (t : List (String × Toml)) : Except DeErr Remote :=
  match getReq t "hosts" asHostList with
  | .error e => .error e
  | .ok hs =>
    match Common.fromTable t with
    | .error e => .error e
    | .ok c => .ok ⟨hs, some c⟩

/-- A TOML value deserialized as a `Remote`: must be a table. -/
def Remote.fromToml : Toml → Except DeErr Remote
  | .table t => Remote.fromTable t
  | _ => .error DeErr.typeMismatch

/-- The serde-derived deserializer of `struct Deprecated`: three optional
fields, the legacy `ssh_arguments` a single unsplit string. -/
def Deprecated.fromTable (t : List (String × Toml)) : Except DeErr Deprecated :=
  match getOpt t "remote_topgrades" asStrList with
  | .error e => .error e
  | .ok rt =>
    match getOpt t "remote_topgrade_path" asStr with
    | .error e => .error e
    | .ok rp =>
      match getOpt t "ssh_arguments" asStr with
      | .error e => .error e
      | .ok sa => .ok ⟨rt, rp, sa⟩

/-- The test fixture `MockConfigFile` of `src/config/remote.rs`: an
optional `remote` table, the flattened optional `Deprecated` legacy keys,
and a flattened remainder map absorbing every other key. -/
structure MockConfigFile where
  remote : Option Remote
  deprecated : Option Deprecated
  remainder : List (String × Toml)

/-- The serde-derived deserializer of `MockConfigFile`: the `remote` key
is read as an optional `Remote`; the remaining top-level keys feed the
flattened `Deprecated` block (whose fields are all optional) and the
remainder map, which accepts anything. -/
def MockConfigFile.fromTable (t : List (String × Toml)) :
    Except DeErr MockConfigFile :=
  match getOpt t "remote" Remote.fromToml with
  | .error e => .error e
  | .ok r =>
    match Deprecated.fromTable (t.filter fun kv => kv.1 != "remote") with
    | .error e => .error e
    | .ok dep => .ok ⟨r, some dep, t.filter fun kv => kv.1 != "remote"⟩

/-- The full legacy 10.1.2 configuration document of the test
`parse_10_1_2_config` in `src/config/remote.rs`, as a parsed table. -/
def config_10_1_2 : List (String × Toml) := [
  ("assume_yes", .boolean true),
  ("disable", .arr [.str "system", .str "emacs"]),
  ("ignore_failures", .arr [.str "powershell"]),
  ("only", .arr [.str "system", .str "emacs"]),
  ("no_retry", .boolean true),
  ("run_in_tmux", .boolean true),
  ("remote_topgrades", .arr [.str "toothless", .str "pi", .str "parnas"]),
  ("ssh_arguments", .str "-o ConnectTimeout=2"),
  ("remote_topgrade_path", .str ".cargo/bin/topgrade"),
  ("tmux_arguments", .str "-S /var/tmux.sock"),
  ("set_title", .boolean false),
  ("display_time", .boolean true),
  ("cleanup", .boolean true),
  ("skip_notify", .boolean true),
  ("git", .table [
    ("max_concurrency", .int 5),
    ("repos", .arr [.str "~/src/*/", .str "~/.config/something"]),
    ("pull_predefined", .boolean false),
    ("arguments", .str "--rebase --autostash")]),
  ("composer", .table [("self_update", .boolean true)]),
  ("pre_commands", .table [("Emacs Snapshot",
    .str "rm -rf ~/.emacs.d/elpa.bak && cp -rl ~/.emacs.d/elpa ~/.emacs.d/elpa.bak")]),
  ("commands", .table [("Python Environment",
    .str "~/dev/.env/bin/pip install -i https://pypi.python.org/simple -U --upgrade-strategy eager jupyter")]),
  ("brew", .table [("greedy_cask", .boolean true), ("autoremove", .boolean true)]),
  ("linux", .table [
    ("arch_package_manager", .str "pacman"),
    ("yay_arguments", .str "--nodevel"),
    ("aura_aur_arguments", .str "-kx"),
    ("aura_pacman_arguments", .str ""),
    ("show_arch_news", .boolean true),
    ("trizen_arguments", .str "--devel"),
    ("pikaur_arguments", .str ""),
    ("pamac_arguments", .str "--no-devel"),
    ("enable_tlmgr", .boolean true),
    ("emerge_sync_flags", .str "-q"),
    ("emerge_update_flags", .str "-uDNa --with-bdeps=y world"),
    ("redhat_distro_sync", .boolean false),
    ("rpm_ostree", .boolean false)]),
  ("windows", .table [
    ("accept_all_updates", .boolean false),
    ("open_remotes_in_new_terminal", .boolean true),
    ("self_rename", .boolean true)]),
  ("npm", .table [("use_sudo", .boolean true)]),
  ("firmware", .table [("upgrade", .boolean true)]),
  ("flatpak", .table [("use_sudo", .boolean true)]),
  ("distrobox", .table [("use_root", .boolean false),
    ("containers", .arr [.str "archlinux-latest"])])]

/-- Helper: when both blocks are populated, `resolve` produces the
conflict error. -/
theorem resolve_conflict_of_both (doc : Document)
    (h : (remotePopulated doc && deprecatedPopulated doc) = true) :
    resolve doc = .error ConfigError.ConflictingFormats := by
  unfold resolve
  rw [if_pos h]

/-- Helper: when the two blocks are not both populated, `resolve`
succeeds with some list of resolved hosts. -/
theorem resolve_ok_of_not_both (doc : Document)
    (h : (remotePopulated doc && deprecatedPopulated doc) = false) :
    ∃ l, resolve doc = .ok l := by
  unfold resolve
  rw [if_neg (by simp [h])]
  split
  · exact ⟨_, rfl⟩
  · split
    · exact ⟨_, rfl⟩
    · exact ⟨_, rfl⟩

/-- Helper: a populated Remote Block and a populated Deprecated Block,
stated structurally. -/
theorem populated_iff (doc : Document) :
    (remotePopulated doc = true ↔ ∃ r, doc.remote = some r ∧ r.hosts ≠ []) ∧
    (deprecatedPopulated doc = true ↔
      ∃ d, doc.deprecated = some d ∧ d.destinations ≠ []) := by
  obtain ⟨r, d⟩ := doc
  constructor
  · cases r with
    | none => simp [remotePopulated]
    | some r => simp [remotePopulated, List.isEmpty_iff]
  · cases d with
    | none => simp [deprecatedPopulated]
    | some d => simp [deprecatedPopulated, List.isEmpty_iff]

/-- C1: `resolve` fails only with `ConflictingFormats`, and it fails
exactly on the documents in which a Remote Block has a non-empty `hosts`
sequence and a Deprecated Block has a non-empty destination list; in
particular a Deprecated Block with empty destinations but leftover global
fields is not a conflict. -/
theorem resolve_error_iff_conflict : ∀ doc : Document,
    (∀ e, resolve doc = .error e → e = ConfigError.ConflictingFormats) ∧
    ((∃ e, resolve doc = .error e) ↔
      (∃ r, doc.remote = some r ∧ r.hosts ≠ []) ∧
      (∃ d, doc.deprecated = some d ∧ d.destinations ≠ [])) := by
  intro doc
  constructor
  · intro e he
    cases hb : (remotePopulated doc && deprecatedPopulated doc) with
    | true =>
      rw [resolve_conflict_of_both doc hb] at he
    | false =>
      obtain ⟨l, hl⟩ := resolve_ok_of_not_both doc hb
      rw [hl] at he
  · constructor
    · rintro ⟨e, he⟩
      cases hb : (remotePopulated doc && deprecatedPopulated doc) with
      | true =>
        rcases Bool.and_eq_true _ _ |>.mp hb with ⟨hr, hd⟩
        exact ⟨(populated_iff doc).1.mp hr, (populated_iff doc).2.mp hd⟩
      | false =>
        obtain ⟨l, hl⟩ := resolve_ok_of_not_both doc hb
        rw [hl] at he
        cases he
    · rintro ⟨h1, h2⟩
      refine ⟨ConfigError.ConflictingFormats, resolve_conflict_of_both doc ?_⟩
      rw [Bool.and_eq_true]
      exact ⟨(populated_iff doc).1.mpr h1, (populated_iff doc).2.mpr h2⟩

/-- Witness for C1 at a concrete conflicting document. -/
theorem resolve_error_iff_conflict_witness :
    ∃ e, resolve ⟨some ⟨[⟨none, "toothless"⟩], none⟩,
        some ⟨some ["pi"], none, none⟩⟩ = .error e :=
  (resolve_error_iff_conflict
      ⟨some ⟨[⟨none, "toothless"⟩], none⟩, some ⟨some ["pi"], none, none⟩⟩).2.mpr
    ⟨⟨_, rfl, by decide⟩, ⟨_, rfl, by decide⟩⟩

/-- Counterexample for C2: a document whose Remote Block has a non-empty
`hosts` sequence but whose Deprecated Block also has non-empty
destinations makes `resolve` fail with `ConflictingFormats`, so it does
not return the per-host resolution the claim promises for every document
with a populated Remote Block. -/
theorem resolve_remote_counterexample :
    resolve ⟨some ⟨[⟨none, "toothless"⟩], none⟩,
        some ⟨some ["pi"], none, none⟩⟩ = .error ConfigError.ConflictingFormats ∧
    resolve ⟨some ⟨[⟨none, "toothless"⟩], none⟩,
        some ⟨some ["pi"], none, none⟩⟩ ≠ .ok [⟨"toothless", [], none⟩] := by
  constructor
  · rfl
  · intro h
    exact Except.noConfusion
      ((rfl : resolve ⟨some ⟨[⟨none, "toothless"⟩], none⟩,
          some ⟨some ["pi"], none, none⟩⟩ =
        .error ConfigError.ConflictingFormats).symm.trans h)

/-- C2 (amended): for every document whose Remote Block is present with a
non-empty `hosts` sequence and whose Deprecated Block is not populated,
`resolve` returns one Resolved Host per Host Entry in the original order,
whose options are `merge` of the global defaults with the per-host
overrides and which carries that entry's destination. -/
theorem resolve_remote_hosts (doc : Document) (r : Remote)
    (hr : doc.remote = some r) (hne : r.hosts ≠ [])
    (hd : deprecatedPopulated doc = false) :
    resolve doc = .ok (r.hosts.map fun h =>
      { destination := h.destination
        ssh_arguments :=
          (Common.merge (r.common.getD Common.empty)
            (h.common.getD Common.empty)).ssh_arguments.getD []
        topgrade_path :=
          (Common.merge (r.common.getD Common.empty)
            (h.common.getD Common.empty)).topgrade_path }) := by
  have hrp : remotePopulated doc = true := (populated_iff doc).1.mpr ⟨r, hr, hne⟩
  unfold resolve
  rw [hrp, hd, hr]
  simp [resolveRemote, resolveHost]

/-- Witness for C2 (amended) at a concrete document with one overridden
and one inherited field. -/
theorem resolve_remote_hosts_witness :
    resolve ⟨some ⟨[⟨some ⟨none, some "topgrade"⟩, "ssh://foo@bar:8080"⟩,
        ⟨none, "pi@raspberry"⟩],
        some ⟨some ["-o", "ConnectTimeout=2"], some "~/.cargo/bin/topgrade"⟩⟩,
      none⟩ =
    .ok [⟨"ssh://foo@bar:8080", ["-o", "ConnectTimeout=2"], some "topgrade"⟩,
      ⟨"pi@raspberry", ["-o", "ConnectTimeout=2"], some "~/.cargo/bin/topgrade"⟩] := by
  have h := resolve_remote_hosts
    ⟨some ⟨[⟨some ⟨none, some "topgrade"⟩, "ssh://foo@bar:8080"⟩,
        ⟨none, "pi@raspberry"⟩],
        some ⟨some ["-o", "ConnectTimeout=2"], some "~/.cargo/bin/topgrade"⟩⟩,
      none⟩
    ⟨[⟨some ⟨none, some "topgrade"⟩, "ssh://foo@bar:8080"⟩,
        ⟨none, "pi@raspberry"⟩],
      some ⟨some ["-o", "ConnectTimeout=2"], some "~/.cargo/bin/topgrade"⟩⟩
    rfl (by decide) rfl
  simpa using h

/-- C3: for every document with no populated Remote Block but a Deprecated
Block with non-empty destinations, `resolve` returns one Resolved Host per
destination string, in order, each sharing the same `remote_path` and the
same whitespace-split connection arguments. -/
theorem resolve_deprecated_hosts (doc : Document) (d : Deprecated)
    (hr : remotePopulated doc = false) (hd : doc.deprecated = some d)
    (hne : d.destinations ≠ []) :
    resolve doc = .ok (d.destinations.map fun dst =>
      { destination := dst
        ssh_arguments := splitWhitespace (d.ssh_arguments.getD "")
        topgrade_path := d.remote_topgrade_path }) := by
  have hdp : deprecatedPopulated doc = true := (populated_iff doc).2.mpr ⟨d, hd, hne⟩
  unfold resolve
  rw [hr, hdp, hd]
  simp [resolveDeprecated]

/-- Witness for C3 at the concrete legacy 10.1.2 configuration values,
checking the whitespace tokenization concretely. -/
theorem resolve_deprecated_hosts_witness :
    resolve ⟨none, some ⟨some ["toothless", "pi", "parnas"],
        some ".cargo/bin/topgrade", some "-o ConnectTimeout=2"⟩⟩ =
    .ok [⟨"toothless", ["-o", "ConnectTimeout=2"], some ".cargo/bin/topgrade"⟩,
      ⟨"pi", ["-o", "ConnectTimeout=2"], some ".cargo/bin/topgrade"⟩,
      ⟨"parnas", ["-o", "ConnectTimeout=2"], some ".cargo/bin/topgrade"⟩] := by
  have h := resolve_deprecated_hosts
    ⟨none, some ⟨some ["toothless", "pi", "parnas"],
      some ".cargo/bin/topgrade", some "-o ConnectTimeout=2"⟩⟩
    ⟨some ["toothless", "pi", "parnas"],
      some ".cargo/bin/topgrade", some "-o ConnectTimeout=2"⟩
    rfl rfl (by decide)
  rw [h]
  rfl

/-- C4: the merge primitive is field-wise: for each of the two fields
independently, the override's value wins when present and the base's value
is used otherwise; `merge` is a total Lean function, so it has no error
conditions. -/
theorem merge_precedence : ∀ base ov : Common,
    ((ov.ssh_arguments.isSome = true →
        (Common.merge base ov).ssh_arguments = ov.ssh_arguments) ∧
     (ov.ssh_arguments = none →
        (Common.merge base ov).ssh_arguments = base.ssh_arguments)) ∧
    ((ov.topgrade_path.isSome = true →
        (Common.merge base ov).topgrade_path = ov.topgrade_path) ∧
     (ov.topgrade_path = none →
        (Common.merge base ov).topgrade_path = base.topgrade_path)) := by
  rintro ⟨sa, tp⟩ ⟨osa, otp⟩
  cases osa <;> cases otp <;> simp [Common.merge]

/-- Witness for C4 at concrete options: an absent override field inherits
the base value, a present one wins. -/
theorem merge_precedence_witness :
    (Common.merge ⟨some ["-a"], some "g"⟩ ⟨none, some "h"⟩).ssh_arguments =
      some ["-a"] ∧
    (Common.merge ⟨some ["-a"], some "g"⟩ ⟨none, some "h"⟩).topgrade_path =
      some "h" :=
  ⟨(merge_precedence ⟨some ["-a"], some "g"⟩ ⟨none, some "h"⟩).1.2 rfl,
   (merge_precedence ⟨some ["-a"], some "g"⟩ ⟨none, some "h"⟩).2.1 rfl⟩

/-- C5: a document with neither a populated Remote Block nor a populated
Deprecated Block resolves to the empty sequence. -/
theorem resolve_empty (doc : Document)
    (h1 : remotePopulated doc = false) (h2 : deprecatedPopulated doc = false) :
    resolve doc = .ok [] := by
  unfold resolve
  rw [h1, h2]
  rfl

/-- Witness for C5 at a document with an unpopulated Deprecated Block
(leftover global fields only). -/
theorem resolve_empty_witness :
    resolve ⟨none, some ⟨none, some ".cargo/bin/topgrade", none⟩⟩ = .ok [] :=
  resolve_empty ⟨none, some ⟨none, some ".cargo/bin/topgrade", none⟩⟩ rfl rfl

/-- Helper: a host resolved against defaults has empty connection
arguments when neither the defaults nor the per-host overrides specify
any. -/
theorem resolveHost_args_empty (defaults : Common) (h : Host)
    (h1 : defaults.ssh_arguments = none)
    (h2 : (h.common.getD Common.empty).ssh_arguments = none) :
    (resolveHost defaults h).ssh_arguments = [] := by
  simp [resolveHost, Common.merge, h1, h2]

/-- Helper: a host resolved against defaults has no remote path when
neither the defaults nor the per-host overrides specify one. -/
theorem resolveHost_path_none (defaults : Common) (h : Host)
    (h1 : defaults.topgrade_path = none)
    (h2 : (h.common.getD Common.empty).topgrade_path = none) :
    (resolveHost defaults h).topgrade_path = none := by
  simp [resolveHost, Common.merge, h1, h2]

/-- C6: every Resolved Host produced by `resolve` carries a plain (never
optional) list of connection arguments, which is the empty list whenever
the document configures none anywhere, while the remote path stays
optional and is absent when the document configures none. -/
theorem resolved_host_defaults (doc : Document) (hs : List ResolvedHost)
    (hok : resolve doc = .ok hs) :
    ∀ rh ∈ hs,
      (argsAbsent doc = true → rh.ssh_arguments = []) ∧
      (pathAbsent doc = true → rh.topgrade_path = none) := by
  intro rh hmem
  unfold resolve at hok
  split at hok
  · exact Except.noConfusion hok
  · split at hok
    · injection hok with hok
      cases hr : doc.remote with
      | none =>
        rw [hr] at hok
        simp at hok
        subst hok
        exact absurd hmem (List.not_mem_nil _)
      | some r =>
        rw [hr] at hok
        simp at hok
        subst hok
        unfold resolveRemote at hmem
        obtain ⟨h, hh, rfl⟩ := List.mem_map.mp hmem
        constructor
        · intro habs
          unfold argsAbsent at habs
          rw [hr] at habs
          simp only [Bool.and_eq_true, List.all_eq_true] at habs
          obtain ⟨⟨hdef, hall⟩, -⟩ := habs
          exact resolveHost_args_empty _ _
            (Option.isNone_iff_eq_none.mp hdef)
            (Option.isNone_iff_eq_none.mp (by simpa using hall h hh))
        · intro habs
          unfold pathAbsent at habs
          rw [hr] at habs
          simp only [Bool.and_eq_true, List.all_eq_true] at habs
          obtain ⟨⟨hdef, hall⟩, -⟩ := habs
          exact resolveHost_path_none _ _
            (Option.isNone_iff_eq_none.mp hdef)
            (Option.isNone_iff_eq_none.mp (by simpa using hall h hh))
    · split at hok
      · injection hok with hok
        cases hd : doc.deprecated with
        | none =>
          rw [hd] at hok
          simp at hok
          subst hok
          exact absurd hmem (List.not_mem_nil _)
        | some d =>
          rw [hd] at hok
          simp at hok
          subst hok
          unfold resolveDeprecated at hmem
          obtain ⟨dst, hdst, rfl⟩ := List.mem_map.mp hmem
          constructor
          · intro habs
            unfold argsAbsent at habs
            rw [hd] at habs
            simp only [Bool.and_eq_true] at habs
            obtain ⟨-, hargs⟩ := habs
            have hn : d.ssh_arguments = none := Option.isNone_iff_eq_none.mp hargs
            show splitWhitespace (d.ssh_arguments.getD "") = []
            rw [hn]
            rfl
          · intro habs
            unfold pathAbsent at habs
            rw [hd] at habs
            simp only [Bool.and_eq_true] at habs
            obtain ⟨-, hp⟩ := habs
            exact Option.isNone_iff_eq_none.mp hp
      · injection hok with hok
        subst hok
        exact absurd hmem (List.not_mem_nil _)

/-- Witness for C6 at a concrete deprecated-only document in which
nothing configures arguments or a path. -/
theorem resolved_host_defaults_witness :
    (ResolvedHost.mk "pi" [] none).ssh_arguments = [] ∧
    (ResolvedHost.mk "pi" [] none).topgrade_path = none := by
  have h := resolved_host_defaults ⟨none, some ⟨some ["pi"], none, none⟩⟩
    [⟨"pi", [], none⟩] rfl ⟨"pi", [], none⟩ (List.mem_singleton.mpr rfl)
  exact ⟨h.1 rfl, h.2 rfl⟩

/-- C7: the Resolver is a pure function of its input document, so
resolving the same document twice yields value-equal results in both the
success and the error case. -/
theorem resolve_deterministic : ∀ doc : Document, resolve doc = resolve doc :=
  fun _ => rfl

/-- Witness for C7 at a concrete document. -/
theorem resolve_deterministic_witness :
    resolve ⟨none, some ⟨some ["pi"], none, none⟩⟩ =
      resolve ⟨none, some ⟨some ["pi"], none, none⟩⟩ :=
  resolve_deterministic ⟨none, some ⟨some ["pi"], none, none⟩⟩

/-- Helper: lookup skips a non-matching leading key. -/
theorem tlookup_cons_ne (k key : String) (v : Toml) (t : List (String × Toml))
    (h : k ≠ key) : tlookup ((k, v) :: t) key = tlookup t key := by
  simp [tlookup, h]

/-- Helper: an optional field ignores a non-matching leading key. -/
theorem getOpt_cons_ne {A : Type} (k key : String) (v : Toml)
    (t : List (String × Toml)) (f : Toml → Except DeErr A) (h : k ≠ key) :
    getOpt ((k, v) :: t) key f = getOpt t key f := by
  unfold getOpt
  rw [tlookup_cons_ne k key v t h]

/-- Helper: the `Deprecated` deserializer ignores a leading key that is
none of its three fields. -/
theorem deprecated_fromTable_cons (k : String) (v : Toml)
    (t : List (String × Toml))
    (h1 : k ≠ "remote_topgrades") (h2 : k ≠ "remote_topgrade_path")
    (h3 : k ≠ "ssh_arguments") :
    Deprecated.fromTable ((k, v) :: t) = Deprecated.fromTable t := by
  unfold Deprecated.fromTable
  rw [getOpt_cons_ne k _ v t asStrList h1, getOpt_cons_ne k _ v t asStr h2,
    getOpt_cons_ne k _ v t asStr h3]

/-- C8: extracting the Remote Block and the Deprecated Block from a parsed
document is unaffected by unrelated top-level keys, and on the full legacy
10.1.2 configuration the extraction succeeds with no Remote Block and
exactly the three legacy values of the test `parse_10_1_2_config`. -/
theorem extraction_ignores_unrelated :
    (∀ (k : String) (v : Toml) (t : List (String × Toml)),
      k ≠ "remote" → k ≠ "remote_topgrades" → k ≠ "remote_topgrade_path" →
      k ≠ "ssh_arguments" →
      (MockConfigFile.fromTable ((k, v) :: t)).map
          (fun m => (m.remote, m.deprecated)) =
        (MockConfigFile.fromTable t).map (fun m => (m.remote, m.deprecated))) ∧
    (MockConfigFile.fromTable config_10_1_2).map
        (fun m => (m.remote, m.deprecated)) =
      .ok (none, some ⟨some ["toothless", "pi", "parnas"],
        some ".cargo/bin/topgrade", some "-o ConnectTimeout=2"⟩) := by
  constructor
  · intro k v t h1 h2 h3 h4
    unfold MockConfigFile.fromTable
    rw [getOpt_cons_ne k _ v t Remote.fromToml h1]
    have hfil : ((k, v) :: t).filter (fun kv => kv.1 != "remote") =
        (k, v) :: t.filter (fun kv => kv.1 != "remote") := by
      simp [List.filter_cons, h1]
    rw [hfil, deprecated_fromTable_cons k v _ h2 h3 h4]
    cases getOpt t "remote" Remote.fromToml <;>
      cases Deprecated.fromTable (t.filter fun kv => kv.1 != "remote") <;> rfl
  · rfl

/-- Witness for C8: a single unrelated key has no effect on the extracted
blocks. -/
theorem extraction_ignores_unrelated_witness :
    (MockConfigFile.fromTable [("assume_yes", Toml.boolean true)]).map
        (fun m => (m.remote, m.deprecated)) =
      (MockConfigFile.fromTable []).map (fun m => (m.remote, m.deprecated)) :=
  extraction_ignores_unrelated.1 "assume_yes" (Toml.boolean true) []
    (by decide) (by decide) (by decide) (by decide)

/-- C9: a document with no `remote` key deserializes with no Remote Block
(whenever its remaining top-level keys are themselves well-shaped, which
the all-optional `Deprecated` fields make the common case, e.g. the empty
document), while inside a present `remote` table the `hosts` field is
required for deserialization to succeed. -/
theorem remote_block_optional :
    (MockConfigFile.fromTable [] = .ok ⟨none, some ⟨none, none, none⟩, []⟩) ∧
    (∀ (t : List (String × Toml)) (d : Deprecated),
      tlookup t "remote" = none →
      Deprecated.fromTable (t.filter fun kv => kv.1 != "remote") = .ok d →
      MockConfigFile.fromTable t =
        .ok ⟨none, some d, t.filter fun kv => kv.1 != "remote"⟩) ∧
    (∀ t : List (String × Toml), tlookup t "hosts" = none →
      Remote.fromTable t = .error (DeErr.missingField "hosts")) := by
  refine ⟨rfl, ?_, ?_⟩
  · intro t d hlk hdep
    unfold MockConfigFile.fromTable
    unfold getOpt
    rw [hlk, hdep]
  · intro t hlk
    unfold Remote.fromTable
    unfold getReq
    rw [hlk]

/-- Witness for C9: a document with only a legacy key has no Remote
Block, and a `remote` table without `hosts` is rejected. -/
theorem remote_block_optional_witness :
    MockConfigFile.fromTable [("ssh_arguments", Toml.str "-o ConnectTimeout=2")] =
      .ok ⟨none, some ⟨none, none, some "-o ConnectTimeout=2"⟩,
        [("ssh_arguments", Toml.str "-o ConnectTimeout=2")]⟩ ∧
    Remote.fromTable [("topgrade_path", Toml.str "topgrade")] =
      .error (DeErr.missingField "hosts") :=
  ⟨remote_block_optional.2.1 [("ssh_arguments", Toml.str "-o ConnectTimeout=2")]
      ⟨none, none, some "-o ConnectTimeout=2"⟩ rfl rfl,
   remote_block_optional.2.2 [("topgrade_path", Toml.str "topgrade")] rfl⟩

/-- C10: `ssh_arguments` deserializes as a sequence of strings inside the
new-format blocks but as a single unsplit string at the legacy top level,
and a value of the wrong shape in either position fails with a type error
rather than being coerced. -/
theorem ssh_arguments_shape_by_position :
    Common.fromTable [("ssh_arguments", Toml.str "-o ConnectTimeout=2")] =
      .error DeErr.typeMismatch ∧
    Common.fromTable [("ssh_arguments",
        Toml.arr [Toml.str "-o", Toml.str "ConnectTimeout=2"])] =
      .ok ⟨some ["-o", "ConnectTimeout=2"], none⟩ ∧
    Deprecated.fromTable [("ssh_arguments",
        Toml.arr [Toml.str "-o", Toml.str "ConnectTimeout=2"])] =
      .error DeErr.typeMismatch ∧
    Deprecated.fromTable [("ssh_arguments", Toml.str "-o ConnectTimeout=2")] =
      .ok ⟨none, none, some "-o ConnectTimeout=2"⟩ :=
  ⟨rfl, rfl, rfl, rfl⟩

end Topgrade
